import Mathlib

/-!
Verification of the HMAC request-authentication subsystem of the
go-template-service repository (package `middleware`, file `hmac.go`, wired
in `appcore/hmac_module.go`).

Modelling conventions for the shallow embedding:
* A Go `string` is modelled as `Str := List Char`.  All header values in the
  claims are ASCII, where Go byte-wise operations (splitting on a delimiter,
  prefix tests, equality) coincide with the character-wise operations used
  here; `[]byte(s)` is the UTF-8 encoding, modelled by `strBytes` where the
  bytes themselves matter.
* `http.Header.Get` returns the empty string both for an absent header and
  for an explicitly empty one, exactly as the Go code observes it, so a
  request carries each relevant header as a plain `Str` with `[]` meaning
  "absent".
* The two hash primitives `sha256.New` / `sha512.New` enter the Go code only
  as the opaque parameter `algorithm func() hash.Hash` of `verifySignature`;
  the embedding is correspondingly parameterised by the two digest functions
  (`s256 s512 : List Nat → List Nat`).  The HMAC construction around them
  (`crypto/hmac`) and base64 (`encoding/base64`, std padded alphabet,
  `\r`/`\n` ignored on decode) are embedded concretely.
* `hmac.Equal([]byte a, []byte b)` compares the UTF-8 encodings of the two
  strings for equality; UTF-8 encoding is injective, so it is modelled as
  string equality (the constant-time aspect is a timing property outside a
  functional model).
-/

/-- Decidable equality for `Except`, so concrete runs of the fallible
operations can be checked by `decide`. -/
instance {ε α : Type} [DecidableEq ε] [DecidableEq α] : DecidableEq (Except ε α) := fun a b =>
  match a, b with
  | .error e₁, .error e₂ => decidable_of_iff (e₁ = e₂) (by simp)
  | .error _, .ok _ => isFalse (by simp)
  | .ok _, .error _ => isFalse (by simp)
  | .ok a₁, .ok a₂ => decidable_of_iff (a₁ = a₂) (by simp)

/-- Go strings, as sequences of characters. -/
abbrev Str := List Char

/-- Character list of a Lean string literal, for writing concrete Go strings. -/
def str (s : String) : Str := s.data

/-- Go `strings.Split(s, sep)` for a single-character separator: splits at
every occurrence, keeps empty fields, and returns `[""]` on the empty
string. -/
def splitChar (sep : Char) : Str → List Str
  | [] => [[]]
  | c :: cs =>
    if c = sep then [] :: splitChar sep cs
    else
      match splitChar sep cs with
      | [] => [[c]]
      | f :: rest => (c :: f) :: rest

/-- Go `strings.HasPrefix(s, pre)` (arguments here: pattern first). -/
def hasPrefixL (pre s : Str) : Bool :=
  match pre, s with
  | [], _ => true
  | _ :: _, [] => false
  | p :: ps, c :: cs => p == c && hasPrefixL ps cs

/-- Go `strings.TrimPrefix(s, pre)`: removes `pre` when present, otherwise
returns `s` unchanged. -/
def trimPrefixL (pre s : Str) : Str :=
  if hasPrefixL pre s then s.drop pre.length else s

/-- Index of a character in the standard base64 alphabet
(`encoding/base64.StdEncoding`). -/
def b64Index (c : Char) : Option Nat :=
  if 'A' ≤ c ∧ c ≤ 'Z' then some (c.toNat - 65)
  else if 'a' ≤ c ∧ c ≤ 'z' then some (c.toNat - 97 + 26)
  else if '0' ≤ c ∧ c ≤ '9' then some (c.toNat - 48 + 52)
  else if c = '+' then some 62
  else if c = '/' then some 63
  else none

/-- Decoding of base64 quantums of four characters, with padding allowed only
in the final quantum (`=` as the last one or two characters), mirroring
`base64.StdEncoding.DecodeString` after newline filtering; any other shape is
a `CorruptInputError`, modelled as `none`. -/
def decodeB64Groups : List Char → Option (List Nat)
  | [] => some []
  | c1 :: c2 :: c3 :: c4 :: rest => do
    let v1 ← b64Index c1
    let v2 ← b64Index c2
    if c3 = '=' then
      if c4 = '=' ∧ rest = [] then
        some [v1 * 4 + v2 / 16]
      else none
    else do
      let v3 ← b64Index c3
      if c4 = '=' then
        if rest = [] then some [v1 * 4 + v2 / 16, v2 % 16 * 16 + v3 / 4]
        else none
      else do
        let v4 ← b64Index c4
        let tail ← decodeB64Groups rest
        some ((v1 * 4 + v2 / 16) :: (v2 % 16 * 16 + v3 / 4) :: (v3 % 4 * 64 + v4) :: tail)
  | _ => none

/-- Go `base64.StdEncoding.DecodeString`: ignores `\r` and `\n`, then decodes
padded four-character quantums; `none` models the `(nil, CorruptInputError)`
return. -/
def decodeBase64 (s : Str) : Option (List Nat) :=
  decodeB64Groups (s.filter (fun c => !(c == '\r' || c == '\n')))

/-- The standard base64 alphabet in order. -/
def b64Chars : Str :=
  str "ABCDEFGHIJKLMNOPQRSTUVWXYZabcdefghijklmnopqrstuvwxyz0123456789+/"

/-- Character for a six-bit value. -/
def b64Char (v : Nat) : Char := b64Chars.getD v 'A'

/-- Base64 encoding of a byte sequence, three bytes per quantum with `=`
padding, as `base64.StdEncoding.EncodeToString`. -/
def encodeB64Groups : List Nat → Str
  | [] => []
  | [b1] => [b64Char (b1 / 4), b64Char (b1 % 4 * 16), '=', '=']
  | [b1, b2] => [b64Char (b1 / 4), b64Char (b1 % 4 * 16 + b2 / 16), b64Char (b2 % 16 * 4), '=']
  | b1 :: b2 :: b3 :: rest =>
    b64Char (b1 / 4) :: b64Char (b1 % 4 * 16 + b2 / 16) ::
      b64Char (b2 % 16 * 4 + b3 / 64) :: b64Char (b3 % 64) :: encodeB64Groups rest

/-- Go `base64.StdEncoding.EncodeToString`. -/
def encodeBase64 (bs : List Nat) : Str := encodeB64Groups bs

/-- UTF-8 encoding of one character, the bytes Go's `[]byte(string)` yields. -/
def utf8Bytes (c : Char) : List Nat :=
  let n := c.toNat
  if n < 128 then [n]
  else if n < 2048 then [192 + n / 64, 128 + n % 64]
  else if n < 65536 then [224 + n / 4096, 128 + n / 64 % 64, 128 + n % 64]
  else [240 + n / 262144, 128 + n / 4096 % 64, 128 + n / 64 % 64, 128 + n % 64]

/-- Go `[]byte(s)`: the UTF-8 bytes of a string. -/
def strBytes (s : Str) : List Nat := s.foldr (fun c acc => utf8Bytes c ++ acc) []

/-- A Go `hash.Hash` constructor as used by `crypto/hmac`: its block size and
the digest it computes over a byte sequence. -/
structure HashFunc where
  blockSize : Nat
  digest : List Nat → List Nat

/-- The digest computed by `hmac.New(h, key)` followed by `Write(msg); Sum(nil)`
(RFC 2104, as implemented in `crypto/hmac`): a key longer than the block size
is first hashed, the key is zero-padded to the block size, and the digest is
`H(opad ++ H(ipad ++ msg))`. -/
def hmacDigest (H : HashFunc) (key msg : List Nat) : List Nat :=
  let k := if H.blockSize < key.length then H.digest key else key
  let kPad := k ++ List.replicate (H.blockSize - k.length) 0
  let ipad := kPad.map (fun b => b ^^^ 0x36)
  let opad := kPad.map (fun b => b ^^^ 0x5c)
  H.digest (opad ++ H.digest (ipad ++ msg))

/-- `middleware.HMACClientSecret`. -/
structure HMACClientSecret where
  clientID : Str
  secret : Str
  department : Str
  descr : Str
deriving DecidableEq

/-- `middleware.HMACRouteRights`: the Go `map[string][]string`, modelled as an
association list with distinct keys (Go map iteration is not relied on — only
emptiness and per-key lookup are used). -/
abbrev HMACRouteRights := List (Str × List Str)

/-- The data behind the `middleware.HMACConfig` interface, as produced by
`appcore.ProvideHMACMiddleware` from `appcore.HMACConfig`: each getter of the
interface reads one of these fields. -/
structure HMACConfig where
  clientSecrets : List HMACClientSecret
  routeRights : HMACRouteRights
  algorithm : Str
  maxAge : Int
  required : Bool
deriving DecidableEq

/-- The per-request data the middleware reads from `*http.Request`: method,
URL path and raw query, host, the three headers (via `Header.Get`, where `[]`
is an absent header), and the body stream's remaining bytes. -/
structure Request where
  method : Str
  path : Str
  rawQuery : Str
  host : Str
  authorization : Str
  date : Str
  contentHmac : Str
  body : List Nat
deriving DecidableEq

/-- The distinct failures `validateHMACSignature` produces, one per distinct
`fmt.Errorf` site.  In the specification's taxonomy the first three are
`MissingHeader`, `malformedAuthorizationHeader` is `MalformedHeader`, and the
rest map to `ClientNotFound`, `RouteForbidden`, `InvalidSecretEncoding` and
`SignatureMismatch` respectively. -/
inductive Failure
  | missingAuthorizationHeader
  | malformedAuthorizationHeader
  | missingDateHeader
  | missingContentHmacHeader
  | clientNotFound
  | routeForbidden
  | invalidSecretEncoding
  | signatureMismatch
deriving DecidableEq

/-- The two failure sites of `parseAuthorizationHeader`:
"invalid Authorization header format" and
"missing Credential or Signature in Authorization header". -/
inductive ParseErr
  | invalidFormat
  | missingCredentialOrSignature
deriving DecidableEq

/-- The error of `verifySignature` and `CreateHMACSignature`:
"secret is not valid Base64". -/
inductive VerifyErr
  | secretNotBase64
deriving DecidableEq

/-- The parameter-scanning loop of `parseAuthorizationHeader`: split the blob
on `&` and fold over the parameters, where a `Credential=` prefix sets the
credential and a `Signature=` prefix sets the signature (a later parameter
overwrites an earlier one), starting from empty strings. -/
def extractCredSig (blob : Str) : Str × Str :=
  (splitChar '&' blob).foldl
    (fun acc param =>
      if hasPrefixL (str "Credential=") param then
        (trimPrefixL (str "Credential=") param, acc.2)
      else if hasPrefixL (str "Signature=") param then
        (acc.1, trimPrefixL (str "Signature=") param)
      else acc)
    ([], [])

/-- `middleware.parseAuthorizationHeader`: split the header on spaces, demand
exactly two segments, scan the second segment's `&`-separated parameters, and
fail if the resulting credential or signature is empty. -/
def parseAuthorizationHeader (authHeader : Str) : Except ParseErr (Str × Str) :=
  match splitChar ' ' authHeader with
  | [_, blob] =>
    let cs := extractCredSig blob
    if cs.1 = [] ∨ cs.2 = [] then .error .missingCredentialOrSignature
    else .ok cs
  | _ => .error .invalidFormat

/-- `middleware.createStringToSign`:
`verb + "\n" + pathAndQuery + "\n" + dateHeader + ";" + host + ";" + contentHash`,
where the raw query is appended to the path after `?` only when non-empty.
(The Go function also receives the body but does not use it.) -/
def createStringToSign (r : Request) (body : List Nat) (dateHeader contentHash : Str) : Str :=
  let verb := r.method
  let pathAndQuery := if r.rawQuery ≠ [] then r.path ++ str "?" ++ r.rawQuery else r.path
  let host := r.host
  verb ++ str "\n" ++ pathAndQuery ++ str "\n" ++ dateHeader ++ str ";" ++ host ++ str ";" ++ contentHash

/-- `middleware.verifySignature`: decode the secret from base64 (failure is
the `(false, err)` return, modelled as `.error`), compute the HMAC digest of
the string-to-sign, base64-encode it, and compare with the supplied signature
(`hmac.Equal` on the two strings' bytes, i.e. string equality; the debug
logging inside the Go function does not affect the result). -/
def verifySignature (stringToSign signature secretKey : Str) (algorithm : HashFunc) :
    Except VerifyErr Bool :=
  match decodeBase64 secretKey with
  | none => .error .secretNotBase64
  | some secretBytes =>
    let expectedSignature := encodeBase64 (hmacDigest algorithm secretBytes (strBytes stringToSign))
    .ok (signature == expectedSignature)

/-- `middleware.getAlgorithm`: `"sha512"` selects SHA-512 (block size 128),
anything else defaults to SHA-256 (block size 64).  The digest functions
themselves are the parameters `s256`/`s512`. -/
def getAlgorithm (s256 s512 : List Nat → List Nat) (algorithm : Str) : HashFunc :=
  if algorithm = str "sha512" then { blockSize := 128, digest := s512 }
  else { blockSize := 64, digest := s256 }

/-- `middleware.findClientSecret`: first client record with a matching
`ClientID` wins; no match is the "client ID not found" error. -/
def findClientSecret (clientID : Str) (clientSecrets : List HMACClientSecret) :
    Except Unit Str :=
  match clientSecrets.find? (fun client => client.clientID == clientID) with
  | some client => .ok client.secret
  | none => .error ()

/-- `middleware.checkRouteAccess`: an empty rights table allows everything; a
missing entry for the client is the "no route permissions" error; otherwise
the route is allowed when some pattern is `*` or is a prefix of the route. -/
def checkRouteAccess (clientID route : Str) (routeRights : HMACRouteRights) :
    Except Unit Unit :=
  if routeRights.isEmpty then .ok ()
  else
    match routeRights.find? (fun kv => kv.1 == clientID) with
    | none => .error ()
    | some kv =>
      if kv.2.any (fun allowedRoute => allowedRoute == str "*" || hasPrefixL allowedRoute route)
      then .ok () else .error ()

/-- `middleware.validateHMACSignature`: the verification pipeline, in source
order — Authorization presence, Authorization parse, Date presence,
x-content-hmac presence, client-secret lookup, route access, body read
(`io.ReadAll` drains the stream) and restore (`r.Body = NopCloser(...)`),
string-to-sign construction, signature verification.  Returns the outcome
together with the request as the downstream handler will see it. -/
def validateHMACSignature (s256 s512 : List Nat → List Nat) (r : Request) (cfg : HMACConfig) :
    Except Failure Unit × Request :=
  if r.authorization = [] then (.error .missingAuthorizationHeader, r)
  else
    match parseAuthorizationHeader r.authorization with
    | .error _ => (.error .malformedAuthorizationHeader, r)
    | .ok (credential, signature) =>
      if r.date = [] then (.error .missingDateHeader, r)
      else if r.contentHmac = [] then (.error .missingContentHmacHeader, r)
      else
        match findClientSecret credential cfg.clientSecrets with
        | .error _ => (.error .clientNotFound, r)
        | .ok clientSecret =>
          match checkRouteAccess credential r.path cfg.routeRights with
          | .error _ => (.error .routeForbidden, r)
          | .ok _ =>
            let body := r.body
            let rDrained := { r with body := [] }
            let rRestored := { rDrained with body := body }
            let stringToSign := createStringToSign rRestored body r.date r.contentHmac
            let algorithm := getAlgorithm s256 s512 cfg.algorithm
            match verifySignature stringToSign signature clientSecret algorithm with
            | .error _ => (.error .invalidSecretEncoding, rRestored)
            | .ok true => (.ok (), rRestored)
            | .ok false => (.error .signatureMismatch, rRestored)

/-- A structured warning event of the logging collaborator
(`logger.Warn("HMAC validation warning", zap.String("error", err.Error()))`). -/
inductive LogEvent
  | warn (e : Failure)
deriving DecidableEq

/-- What the middleware hands control to after running: either the 401
problem+json response (authentication required and failed) or the downstream
handler, invoked with the request as the middleware leaves it. -/
inductive MWResult
  | unauthorizedProblem (e : Failure)
  | next (r : Request)
deriving DecidableEq

/-- `middleware.HMACAuthMiddleware`: on a validation failure, required mode
sends the 401 problem response and stops; non-required mode logs a warning
(when the per-request logger could be constructed, `loggerOk`) and falls
through to the downstream handler, which also receives control on success. -/
def HMACAuthMiddleware (s256 s512 : List Nat → List Nat) (loggerOk : Bool)
    (cfg : HMACConfig) (r : Request) : MWResult × List LogEvent :=
  match validateHMACSignature s256 s512 r cfg with
  | (.error e, rOut) =>
    if cfg.required then (.unauthorizedProblem e, [])
    else (.next rOut, if loggerOk then [.warn e] else [])
  | (.ok _, rOut) => (.next rOut, [])

/-- `middleware.CreateHMACSignature` (the signer, used for testing): builds
the canonical string with the host fixed to `localhost`, decodes the secret
from base64, and returns the base64-encoded HMAC digest.  (The Go function
also receives the body and client ID but uses neither.) -/
def CreateHMACSignature (s256 s512 : List Nat → List Nat) (method path : Str)
    (body : List Nat) (dateHeader contentHash clientID secretKey algorithm : Str) :
    Except VerifyErr Str :=
  let stringToSign :=
    method ++ str "\n" ++ path ++ str "\n" ++ dateHeader ++ str ";localhost;" ++ contentHash
  let hashFunc := getAlgorithm s256 s512 algorithm
  match decodeBase64 secretKey with
  | none => .error .secretNotBase64
  | some secretBytes =>
    .ok (encodeBase64 (hmacDigest hashFunc secretBytes (strBytes stringToSign)))

/-- The request returned by the validator is the one it was given: every early
exit returns it untouched, and the body-reading branch drains the stream and
then restores exactly the bytes it read. -/
theorem validateHMACSignature_snd (s256 s512 : List Nat → List Nat) (r : Request)
    (cfg : HMACConfig) : (validateHMACSignature s256 s512 r cfg).2 = r := by
  unfold validateHMACSignature
  repeat' split
  all_goals first
    | rfl
    | (dsimp only; split <;> rfl)

/-- C1: verifySignature turns a secret that is not valid base64 into the
verification failure underlying InvalidSecretEncoding (a returned error, not
a panic), and for a secret that decodes it returns true exactly when the
supplied signature equals the base64 encoding of the HMAC digest of the
canonical string computed with the decoded secret under the selected
algorithm. -/
theorem verifySignature_spec (H : HashFunc) (canonical sig secretKey : Str) :
    (decodeBase64 secretKey = none →
      verifySignature canonical sig secretKey H = .error .secretNotBase64) ∧
    (∀ bs, decodeBase64 secretKey = some bs →
      (verifySignature canonical sig secretKey H = .ok true ↔
        sig = encodeBase64 (hmacDigest H bs (strBytes canonical)))) := by
  constructor
  · intro h
    simp [verifySignature, h]
  · intro bs h
    simp [verifySignature, h]

/-- Witness for C1 at concrete inputs: a non-base64 secret is rejected as the
encoding failure, and with the decodable secret c2VjcmV0 a signature equal to
the encoded digest verifies. -/
theorem verifySignature_spec_witness :
    verifySignature (str "m") (str "s") (str "!!")
        { blockSize := 64, digest := fun _ => [1, 2] } = .error .secretNotBase64 ∧
    verifySignature (str "m") (str "AQI=") (str "c2VjcmV0")
        { blockSize := 64, digest := fun _ => [1, 2] } = .ok true := by
  constructor
  · exact (verifySignature_spec { blockSize := 64, digest := fun _ => [1, 2] }
      (str "m") (str "s") (str "!!")).1 (by decide)
  · exact ((verifySignature_spec { blockSize := 64, digest := fun _ => [1, 2] }
      (str "m") (str "AQI=") (str "c2VjcmV0")).2
      [115, 101, 99, 114, 101, 116] (by decide)).mpr (by decide)

/-- The canonical string exactly as the specification words it: METHOD, a
newline, the path with the raw query appended after a question mark only when
non-empty, a newline, then the Date value, the host and the x-content-hmac
value joined by literal semicolons. -/
def specStringToSign (method path query dateHeader host contentHash : Str) : Str :=
  method ++ str "\n" ++ (path ++ (if query = [] then [] else str "?" ++ query)) ++ str "\n" ++
    List.intercalate (str ";") [dateHeader, host, contentHash]

/-- C2: the string-to-sign the middleware builds is character-for-character
the specification form, with no other characters, normalization, or case
changes introduced. -/
theorem createStringToSign_matches_spec (r : Request) (body : List Nat)
    (dateHeader contentHash : Str) :
    createStringToSign r body dateHeader contentHash =
      specStringToSign r.method r.path r.rawQuery dateHeader r.host contentHash := by
  rcases eq_or_ne r.rawQuery [] with h | h <;>
    simp [createStringToSign, specStringToSign, h, List.intercalate, List.intersperse]

/-- C3: with an empty rights table every client is allowed on every path; a
non-empty table with no entry for the client forbids it; with an entry, the
client is allowed exactly when some pattern equals * or is a character-wise
(hence byte-wise for UTF-8), case-sensitive prefix of the path. -/
theorem checkRouteAccess_spec_cases (clientID path : Str) (t : HMACRouteRights) :
    (t = [] → checkRouteAccess clientID path t = .ok ()) ∧
    (t ≠ [] → t.find? (fun kv => kv.1 == clientID) = none →
      checkRouteAccess clientID path t = .error ()) ∧
    (∀ kv, t.find? (fun kv => kv.1 == clientID) = some kv →
      (checkRouteAccess clientID path t = .ok () ↔
        ∃ p ∈ kv.2, p = str "*" ∨ hasPrefixL p path = true)) := by
  refine ⟨?_, ?_, ?_⟩
  · intro h
    simp [checkRouteAccess, h]
  · intro h hfind
    cases t with
    | nil => exact absurd rfl h
    | cons hd tl => simp [checkRouteAccess, hfind]
  · intro kv hfind
    have hred : checkRouteAccess clientID path t =
        (if kv.2.any (fun allowedRoute => allowedRoute == str "*" || hasPrefixL allowedRoute path)
         then .ok () else .error ()) := by
      cases t with
      | nil => simp at hfind
      | cons hd tl => simp [checkRouteAccess, hfind]
    rw [hred]
    by_cases hany : kv.2.any
        (fun allowedRoute => allowedRoute == str "*" || hasPrefixL allowedRoute path) = true
    · rw [if_pos hany]
      refine iff_of_true rfl ?_
      obtain ⟨p, hp, hor⟩ := List.any_eq_true.mp hany
      simp only [Bool.or_eq_true, beq_iff_eq] at hor
      exact ⟨p, hp, hor⟩
    · rw [if_neg hany]
      refine iff_of_false (by simp) ?_
      rintro ⟨p, hp, hor⟩
      refine hany (List.any_eq_true.mpr ⟨p, hp, ?_⟩)
      rcases hor with h1 | h2
      · simp [h1]
      · simp [h2]

/-- Witness for C3: the empty table allows a concrete client and path. -/
theorem checkRouteAccess_spec_cases_witness :
    checkRouteAccess (str "c") (str "/api/v1/users") [] = .ok () :=
  (checkRouteAccess_spec_cases (str "c") (str "/api/v1/users") []).1 rfl

/-- C4: for every canonical-string ingredient list, every secret that decodes
from base64, and any configured algorithm name (covering both supported
algorithms), the signature produced by CreateHMACSignature verifies against
the same canonical string, secret and algorithm. -/
theorem sign_then_verify_roundtrip (s256 s512 : List Nat → List Nat)
    (method path dateHeader contentHash clientID secretKey algorithm : Str)
    (body : List Nat) (bs : List Nat) (hsecret : decodeBase64 secretKey = some bs) :
    ∃ sig,
      CreateHMACSignature s256 s512 method path body dateHeader contentHash clientID
          secretKey algorithm = .ok sig ∧
      verifySignature
          (method ++ str "\n" ++ path ++ str "\n" ++ dateHeader ++ str ";localhost;" ++ contentHash)
          sig secretKey (getAlgorithm s256 s512 algorithm) = .ok true := by
  refine ⟨encodeBase64 (hmacDigest (getAlgorithm s256 s512 algorithm) bs
    (strBytes (method ++ str "\n" ++ path ++ str "\n" ++ dateHeader ++ str ";localhost;" ++
      contentHash))), ?_, ?_⟩
  · simp [CreateHMACSignature, hsecret]
  · simp [verifySignature, hsecret]

/-- Witness for C4: the round trip at concrete inputs with the secret
c2VjcmV0 and the default algorithm name. -/
theorem sign_then_verify_roundtrip_witness :
    ∃ sig,
      CreateHMACSignature (fun _ => [1, 2]) (fun _ => [3]) (str "GET") (str "/api/v1/users")
          [] (str "D") (str "CH") (str "c1") (str "c2VjcmV0") (str "sha256") = .ok sig ∧
      verifySignature
          (str "GET" ++ str "\n" ++ str "/api/v1/users" ++ str "\n" ++ str "D" ++
            str ";localhost;" ++ str "CH")
          sig (str "c2VjcmV0") (getAlgorithm (fun _ => [1, 2]) (fun _ => [3]) (str "sha256")) =
        .ok true :=
  sign_then_verify_roundtrip (fun _ => [1, 2]) (fun _ => [3]) (str "GET") (str "/api/v1/users")
    (str "D") (str "CH") (str "c1") (str "c2VjcmV0") (str "sha256") [] 
    [115, 101, 99, 114, 101, 116] (by decide)

/-- Counterexample to C5 as stated: in
"HMAC-SHA256 Credential=&Signature=abc" the space split yields exactly two
segments and parameters carrying Credential= and Signature= are both found,
yet the parser fails, because the Credential= parameter has an empty value. -/
theorem parseAuthorizationHeader_claim_counterexample :
    (splitChar ' ' (str "HMAC-SHA256 Credential=&Signature=abc")).length = 2 ∧
    ((splitChar '&' (str "Credential=&Signature=abc")).any
        (fun p => hasPrefixL (str "Credential=") p)) = true ∧
    ((splitChar '&' (str "Credential=&Signature=abc")).any
        (fun p => hasPrefixL (str "Signature=") p)) = true ∧
    parseAuthorizationHeader (str "HMAC-SHA256 Credential=&Signature=abc") =
      .error .missingCredentialOrSignature := by
  decide

/-- C5 (amended): an absent Authorization header is reported as the missing
header failure (at the validate step); parsing fails with the invalid-format
error exactly when the space split does not yield two segments; with two
segments it fails exactly when the parameter scan leaves the credential or
the signature empty — a Credential=/Signature= parameter with an empty value
counts the same as an absent one, and a later parameter overwrites an earlier
one — and otherwise succeeds with the scanned pair. -/
theorem parseAuthorizationHeader_amended (s256 s512 : List Nat → List Nat) (r : Request)
    (cfg : HMACConfig) (authHeader : Str) :
    (r.authorization = [] →
      (validateHMACSignature s256 s512 r cfg).1 = .error .missingAuthorizationHeader) ∧
    ((splitChar ' ' authHeader).length ≠ 2 →
      parseAuthorizationHeader authHeader = .error .invalidFormat) ∧
    (∀ scheme blob, splitChar ' ' authHeader = [scheme, blob] →
      ((extractCredSig blob).1 = [] ∨ (extractCredSig blob).2 = [] →
        parseAuthorizationHeader authHeader = .error .missingCredentialOrSignature) ∧
      ((extractCredSig blob).1 ≠ [] → (extractCredSig blob).2 ≠ [] →
        parseAuthorizationHeader authHeader = .ok (extractCredSig blob))) := by
  refine ⟨?_, ?_, ?_⟩
  · intro h
    simp [validateHMACSignature, h]
  · intro h
    rcases hs : splitChar ' ' authHeader with _ | ⟨a, _ | ⟨b, _ | _⟩⟩
    · simp [parseAuthorizationHeader, hs]
    · simp [parseAuthorizationHeader, hs]
    · exact absurd (by rw [hs]; rfl) h
    · simp [parseAuthorizationHeader, hs]
  · intro scheme blob hs
    constructor
    · intro hemp
      simp [parseAuthorizationHeader, hs, hemp]
    · intro hc hsig
      simp [parseAuthorizationHeader, hs, hc, hsig]

/-- Witness for the amended C5: a well-formed header parses to the pair the
parameter scan produces. -/
theorem parseAuthorizationHeader_amended_witness :
    parseAuthorizationHeader (str "HMAC-SHA256 Credential=c&Signature=s") =
      .ok (extractCredSig (str "Credential=c&Signature=s")) := by
  have h := (parseAuthorizationHeader_amended (fun _ => []) (fun _ => [])
    { method := [], path := [], rawQuery := [], host := [], authorization := [],
      date := [], contentHmac := [], body := [] }
    { clientSecrets := [], routeRights := [], algorithm := [], maxAge := 0, required := true }
    (str "HMAC-SHA256 Credential=c&Signature=s")).2.2
    (str "HMAC-SHA256") (str "Credential=c&Signature=s") (by decide)
  exact h.2 (by decide) (by decide)

/-- Counterexample to C6 as stated: a request with a malformed Authorization
header and an absent Date header is reported as the malformed-header failure,
not as the missing-Date failure the claim requires for every request. -/
theorem missing_header_claim_counterexample :
    (validateHMACSignature (fun _ => []) (fun _ => [])
        { method := str "GET", path := str "/x", rawQuery := [], host := str "h",
          authorization := str "garbage", date := [], contentHmac := [], body := [] }
        { clientSecrets := [], routeRights := [], algorithm := str "sha256", maxAge := 300,
          required := true }).1 = .error .malformedAuthorizationHeader ∧
    (validateHMACSignature (fun _ => []) (fun _ => [])
        { method := str "GET", path := str "/x", rawQuery := [], host := str "h",
          authorization := str "garbage", date := [], contentHmac := [], body := [] }
        { clientSecrets := [], routeRights := [], algorithm := str "sha256", maxAge := 300,
          required := true }).1 ≠ .error .missingDateHeader := by
  decide

/-- C6 (amended): the absence of the Date header, and then of the
x-content-hmac header, is reported as the missing-header failure once the
Authorization header has parsed successfully — so after the Credential and
Signature parameters are extracted — but before any credential lookup, route
authorization, body read, or signature work: the outcome is the same for
every configuration and every pair of hash functions. -/
theorem missing_header_after_parse (s256 s512 : List Nat → List Nat) (r : Request)
    (cfg : HMACConfig) (c s : Str)
    (hparse : parseAuthorizationHeader r.authorization = .ok (c, s)) :
    (r.date = [] →
      (validateHMACSignature s256 s512 r cfg).1 = .error .missingDateHeader) ∧
    (r.date ≠ [] → r.contentHmac = [] →
      (validateHMACSignature s256 s512 r cfg).1 = .error .missingContentHmacHeader) := by
  have hne : r.authorization ≠ [] := by
    intro h0
    rw [h0] at hparse
    have hempty : parseAuthorizationHeader [] = .error .invalidFormat := by decide
    rw [hempty] at hparse
    exact Except.noConfusion hparse
  constructor
  · intro hdate
    simp [validateHMACSignature, hne, hparse, hdate]
  · intro hdate hch
    simp [validateHMACSignature, hne, hparse, hdate, hch]

/-- Witness for the amended C6: with a parseable Authorization header and no
Date header, the concrete outcome is the missing-Date failure. -/
theorem missing_header_after_parse_witness :
    (validateHMACSignature (fun _ => []) (fun _ => [])
        { method := str "GET", path := str "/x", rawQuery := [], host := str "h",
          authorization := str "A Credential=c&Signature=s", date := [], contentHmac := [],
          body := [] }
        { clientSecrets := [], routeRights := [], algorithm := str "sha256", maxAge := 300,
          required := true }).1 = .error .missingDateHeader :=
  (missing_header_after_parse (fun _ => []) (fun _ => [])
    { method := str "GET", path := str "/x", rawQuery := [], host := str "h",
      authorization := str "A Credential=c&Signature=s", date := [], contentHmac := [],
      body := [] }
    { clientSecrets := [], routeRights := [], algorithm := str "sha256", maxAge := 300,
      required := true }
    (str "c") (str "s") (by decide)).1 rfl

/-- C7: when authentication is configured as not required, any request that
fails validation — whatever the failure kind — has the failure recorded as a
warning through the logging collaborator, and control passes to the
downstream handler with the same request it would receive had validation
accepted. -/
theorem fail_open_logs_and_proceeds (s256 s512 : List Nat → List Nat) (cfg : HMACConfig)
    (r : Request) (e : Failure) (hreq : cfg.required = false)
    (hfail : (validateHMACSignature s256 s512 r cfg).1 = .error e) :
    HMACAuthMiddleware s256 s512 true cfg r = (.next r, [.warn e]) := by
  have hpair : validateHMACSignature s256 s512 r cfg = (.error e, r) :=
    calc validateHMACSignature s256 s512 r cfg
        = ((validateHMACSignature s256 s512 r cfg).1,
           (validateHMACSignature s256 s512 r cfg).2) := rfl
      _ = (.error e, r) := by rw [hfail, validateHMACSignature_snd]
  unfold HMACAuthMiddleware
  rw [hpair]
  simp [hreq]

/-- Witness for C7: a request with no Authorization header under a
not-required configuration is logged as a warning and handed to the
downstream handler unchanged. -/
theorem fail_open_logs_and_proceeds_witness :
    HMACAuthMiddleware (fun _ => []) (fun _ => []) true
      { clientSecrets := [], routeRights := [], algorithm := str "sha256", maxAge := 300,
        required := false }
      { method := str "GET", path := str "/x", rawQuery := [], host := str "h",
        authorization := [], date := [], contentHmac := [], body := [1, 2, 3] } =
    (.next { method := str "GET", path := str "/x", rawQuery := [], host := str "h",
             authorization := [], date := [], contentHmac := [], body := [1, 2, 3] },
     [.warn .missingAuthorizationHeader]) :=
  fail_open_logs_and_proceeds (fun _ => []) (fun _ => [])
    { clientSecrets := [], routeRights := [], algorithm := str "sha256", maxAge := 300,
      required := false }
    { method := str "GET", path := str "/x", rawQuery := [], host := str "h",
      authorization := [], date := [], contentHmac := [], body := [1, 2, 3] }
    .missingAuthorizationHeader rfl (by decide)

/-- C9: when validation accepts a request, the downstream handler is invoked
with a request whose body stream holds exactly the original bytes — the body
is fully read during verification and then restored. -/
theorem accepted_request_body_restored (s256 s512 : List Nat → List Nat) (loggerOk : Bool)
    (cfg : HMACConfig) (r : Request)
    (haccept : (validateHMACSignature s256 s512 r cfg).1 = .ok ()) :
    ∃ rNext, HMACAuthMiddleware s256 s512 loggerOk cfg r = (.next rNext, []) ∧
      rNext.body = r.body := by
  have hpair : validateHMACSignature s256 s512 r cfg = (.ok (), r) :=
    calc validateHMACSignature s256 s512 r cfg
        = ((validateHMACSignature s256 s512 r cfg).1,
           (validateHMACSignature s256 s512 r cfg).2) := rfl
      _ = (.ok (), r) := by rw [haccept, validateHMACSignature_snd]
  refine ⟨r, ?_, rfl⟩
  unfold HMACAuthMiddleware
  rw [hpair]

/-- Witness for C9: a concrete request that passes the whole pipeline — the
signature matches the encoded digest — reaches the downstream handler with
its body bytes intact. -/
theorem accepted_request_body_restored_witness :
    ∃ rNext,
      HMACAuthMiddleware (fun _ => [1, 2]) (fun _ => [3]) true
        { clientSecrets := [{ clientID := str "c1", secret := str "c2VjcmV0",
                              department := [], descr := [] }],
          routeRights := [], algorithm := str "sha256", maxAge := 300, required := true }
        { method := str "GET", path := str "/api/v1/users", rawQuery := [], host := str "h",
          authorization := str "HMAC-SHA256 Credential=c1&Signature=AQI=",
          date := str "D", contentHmac := str "CH", body := [7, 8, 9] } =
      (.next rNext, []) ∧ rNext.body = [7, 8, 9] :=
  accepted_request_body_restored (fun _ => [1, 2]) (fun _ => [3]) true
    { clientSecrets := [{ clientID := str "c1", secret := str "c2VjcmV0",
                          department := [], descr := [] }],
      routeRights := [], algorithm := str "sha256", maxAge := 300, required := true }
    { method := str "GET", path := str "/api/v1/users", rawQuery := [], host := str "h",
      authorization := str "HMAC-SHA256 Credential=c1&Signature=AQI=",
      date := str "D", contentHmac := str "CH", body := [7, 8, 9] }
    (by decide)

/-- Splitting never yields an empty list of fields. -/
theorem splitChar_ne_nil (sep : Char) (s : Str) : splitChar sep s ≠ [] := by
  cases s with
  | nil => simp [splitChar]
  | cons c cs =>
    simp only [splitChar]
    split
    · simp
    · split <;> simp

/-- Splitting a string of the form s ++ sep ++ t, with no separator inside s,
peels off s as the first field. -/
theorem splitChar_append (sep : Char) (s t : Str) (h : sep ∉ s) :
    splitChar sep (s ++ sep :: t) = s :: splitChar sep t := by
  induction s with
  | nil => simp [splitChar]
  | cons c cs ih =>
    have hc : ¬c = sep := by
      intro hcon
      exact h (by rw [hcon]; exact List.mem_cons_self sep cs)
    have hcs : sep ∉ cs := fun hmem => h (List.mem_cons_of_mem c hmem)
    simp only [List.cons_append, splitChar, if_neg hc, List.append_eq]
    rw [ih hcs]

/-- The verification outcome depends on the Authorization header only through
the parser's result: two non-empty header values with equal parses yield
equal outcomes on otherwise identical requests. -/
theorem validateHMACSignature_fst_congr (s256 s512 : List Nat → List Nat) (cfg : HMACConfig)
    (r : Request) (a₁ a₂ : Str) (h₁ : a₁ ≠ []) (h₂ : a₂ ≠ [])
    (hp : parseAuthorizationHeader a₁ = parseAuthorizationHeader a₂) :
    (validateHMACSignature s256 s512 { r with authorization := a₁ } cfg).1 =
    (validateHMACSignature s256 s512 { r with authorization := a₂ } cfg).1 := by
  unfold validateHMACSignature
  dsimp only
  rw [if_neg h₁, if_neg h₂, hp]
  cases hpa : parseAuthorizationHeader a₂ with
  | error pe => rfl
  | ok cs =>
    obtain ⟨c, s⟩ := cs
    dsimp only [createStringToSign]
    repeat' split
    all_goals rfl

/-- C8: the verification algorithm comes only from the configured algorithm
name — two requests identical except for the scheme token of the
Authorization header (any space-free token, covering HMAC-SHA256 versus
HMAC-SHA512 and anything else) have the same verification outcome. -/
theorem scheme_token_ignored (s256 s512 : List Nat → List Nat) (cfg : HMACConfig)
    (r : Request) (scheme1 scheme2 rest : Str)
    (h₁ : ' ' ∉ scheme1) (h₂ : ' ' ∉ scheme2) :
    (validateHMACSignature s256 s512 { r with authorization := scheme1 ++ ' ' :: rest } cfg).1 =
    (validateHMACSignature s256 s512 { r with authorization := scheme2 ++ ' ' :: rest } cfg).1 := by
  have hne : ∀ sc : Str, sc ++ ' ' :: rest ≠ [] := by
    intro sc hcon
    rcases List.append_eq_nil.mp hcon with ⟨-, h⟩
    exact List.noConfusion h
  have hp : parseAuthorizationHeader (scheme1 ++ ' ' :: rest) =
      parseAuthorizationHeader (scheme2 ++ ' ' :: rest) := by
    unfold parseAuthorizationHeader
    rw [splitChar_append ' ' scheme1 rest h₁, splitChar_append ' ' scheme2 rest h₂]
    cases hsr : splitChar ' ' rest with
    | nil => rfl
    | cons b bs => cases bs <;> rfl
  exact validateHMACSignature_fst_congr s256 s512 cfg r _ _ (hne scheme1) (hne scheme2) hp

/-- Witness for C8: advertising HMAC-SHA512 instead of HMAC-SHA256 in the
scheme token leaves the concrete outcome unchanged. -/
theorem scheme_token_ignored_witness :
    (validateHMACSignature (fun _ => [1]) (fun _ => [2])
        { method := str "GET", path := str "/x", rawQuery := [], host := str "h",
          authorization := str "HMAC-SHA256" ++ ' ' :: str "Credential=c&Signature=s",
          date := str "D", contentHmac := str "CH", body := [] }
        { clientSecrets := [], routeRights := [], algorithm := str "sha256", maxAge := 300,
          required := true }).1 =
    (validateHMACSignature (fun _ => [1]) (fun _ => [2])
        { method := str "GET", path := str "/x", rawQuery := [], host := str "h",
          authorization := str "HMAC-SHA512" ++ ' ' :: str "Credential=c&Signature=s",
          date := str "D", contentHmac := str "CH", body := [] }
        { clientSecrets := [], routeRights := [], algorithm := str "sha256", maxAge := 300,
          required := true }).1 :=
  scheme_token_ignored (fun _ => [1]) (fun _ => [2])
    { clientSecrets := [], routeRights := [], algorithm := str "sha256", maxAge := 300,
      required := true }
    { method := str "GET", path := str "/x", rawQuery := [], host := str "h",
      authorization := [], date := str "D", contentHmac := str "CH", body := [] }
    (str "HMAC-SHA256") (str "HMAC-SHA512") (str "Credential=c&Signature=s")
    (by decide) (by decide)

/-- Once the header, parse, presence, lookup and route steps have gone
through, the outcome is decided by the signature check alone. -/
theorem validateHMACSignature_fst_verify (s256 s512 : List Nat → List Nat) (r : Request)
    (cfg : HMACConfig) (c s clientSecret : Str)
    (ha : ¬r.authorization = [])
    (hpa : parseAuthorizationHeader r.authorization = Except.ok (c, s))
    (hd : ¬r.date = []) (hch : ¬r.contentHmac = [])
    (hf : findClientSecret c cfg.clientSecrets = .ok clientSecret)
    (hr : checkRouteAccess c r.path cfg.routeRights = .ok ()) :
    (validateHMACSignature s256 s512 r cfg).1 =
      match verifySignature (createStringToSign r r.body r.date r.contentHmac) s clientSecret
          (getAlgorithm s256 s512 cfg.algorithm) with
      | .error _ => .error .invalidSecretEncoding
      | .ok true => .ok ()
      | .ok false => .error .signatureMismatch := by
  unfold validateHMACSignature
  dsimp only
  rw [if_neg ha, hpa]
  dsimp only
  rw [if_neg hd, if_neg hch, hf, hr]
  dsimp only
  have hre : Request.mk r.method r.path r.rawQuery r.host r.authorization r.date
      r.contentHmac r.body = r := rfl
  rw [hre]
  split <;> rfl

/-- The signature-check tail lands in the accept state or in the
signature-mismatch failure, whichever way the comparison goes. -/
theorem verify_match_ok_or_mismatch (b : Bool) :
    (match (Except.ok b : Except VerifyErr Bool) with
     | .error _ => (Except.error Failure.invalidSecretEncoding : Except Failure Unit)
     | .ok true => .ok ()
     | .ok false => .error .signatureMismatch) = .ok () ∨
    (match (Except.ok b : Except VerifyErr Bool) with
     | .error _ => (Except.error Failure.invalidSecretEncoding : Except Failure Unit)
     | .ok true => .ok ()
     | .ok false => .error .signatureMismatch) = .error .signatureMismatch := by
  cases b
  · right; rfl
  · left; rfl

/-- C10: the verification outcome never reads the configured MaxAge — two
configurations differing only there act identically — and the Date header is
never parsed or validated beyond non-emptiness: a request with any non-empty
Date value is never rejected for its Date, and replacing one non-empty Date
value by another either leaves the outcome unchanged or moves it within the
accept/signature-mismatch pair decided by the canonical string's exact bytes;
no freshness or replay check exists. -/
theorem maxage_and_date_opacity (s256 s512 : List Nat → List Nat) (cfg : HMACConfig)
    (m₁ m₂ : Int) (r : Request) (d₁ d₂ : Str) (h₁ : d₁ ≠ []) (h₂ : d₂ ≠ []) :
    validateHMACSignature s256 s512 r { cfg with maxAge := m₁ } =
      validateHMACSignature s256 s512 r { cfg with maxAge := m₂ } ∧
    (validateHMACSignature s256 s512 { r with date := d₁ } cfg).1 ≠
      .error .missingDateHeader ∧
    ((validateHMACSignature s256 s512 { r with date := d₁ } cfg).1 =
       (validateHMACSignature s256 s512 { r with date := d₂ } cfg).1 ∨
     (((validateHMACSignature s256 s512 { r with date := d₁ } cfg).1 = .ok () ∨
       (validateHMACSignature s256 s512 { r with date := d₁ } cfg).1 =
         .error .signatureMismatch) ∧
      ((validateHMACSignature s256 s512 { r with date := d₂ } cfg).1 = .ok () ∨
       (validateHMACSignature s256 s512 { r with date := d₂ } cfg).1 =
         .error .signatureMismatch))) := by
  refine ⟨rfl, ?_, ?_⟩
  · unfold validateHMACSignature
    dsimp only
    repeat' split
    all_goals simp_all
  · by_cases ha : r.authorization = []
    · left
      simp [validateHMACSignature, ha]
    · cases hpa : parseAuthorizationHeader r.authorization with
      | error pe =>
        left
        simp [validateHMACSignature, ha, hpa]
      | ok cs =>
        obtain ⟨c, s⟩ := cs
        by_cases hch : r.contentHmac = []
        · left
          simp [validateHMACSignature, ha, hpa, h₁, h₂, hch]
        · cases hf : findClientSecret c cfg.clientSecrets with
          | error u =>
            left
            simp [validateHMACSignature, ha, hpa, h₁, h₂, hch, hf]
          | ok clientSecret =>
            cases hr : checkRouteAccess c r.path cfg.routeRights with
            | error u =>
              left
              simp [validateHMACSignature, ha, hpa, h₁, h₂, hch, hf, hr]
            | ok u =>
              obtain ⟨⟩ := u
              rw [validateHMACSignature_fst_verify s256 s512 { r with date := d₁ } cfg c s
                    clientSecret ha hpa h₁ hch hf hr,
                  validateHMACSignature_fst_verify s256 s512 { r with date := d₂ } cfg c s
                    clientSecret ha hpa h₂ hch hf hr]
              cases hdec : decodeBase64 clientSecret with
              | none =>
                left
                simp [verifySignature, hdec]
              | some bs =>
                right
                dsimp only
                simp only [verifySignature, hdec]
                exact ⟨verify_match_ok_or_mismatch _, verify_match_ok_or_mismatch _⟩

/-- Witness for C10 at concrete inputs: MaxAge 0 versus 999 gives identical
outcomes, and a garbage non-RFC1123 Date value is never rejected for its
format. -/
theorem maxage_and_date_opacity_witness :
    validateHMACSignature (fun _ => [1, 2]) (fun _ => [3])
        { method := str "GET", path := str "/x", rawQuery := [], host := str "h",
          authorization := str "HMAC-SHA256 Credential=c1&Signature=AQI=",
          date := str "D", contentHmac := str "CH", body := [] }
        { clientSecrets := [{ clientID := str "c1", secret := str "c2VjcmV0",
                              department := [], descr := [] }],
          routeRights := [], algorithm := str "sha256", maxAge := 0, required := true } =
      validateHMACSignature (fun _ => [1, 2]) (fun _ => [3])
        { method := str "GET", path := str "/x", rawQuery := [], host := str "h",
          authorization := str "HMAC-SHA256 Credential=c1&Signature=AQI=",
          date := str "D", contentHmac := str "CH", body := [] }
        { clientSecrets := [{ clientID := str "c1", secret := str "c2VjcmV0",
                              department := [], descr := [] }],
          routeRights := [], algorithm := str "sha256", maxAge := 999, required := true } ∧
    (validateHMACSignature (fun _ => [1, 2]) (fun _ => [3])
        { method := str "GET", path := str "/x", rawQuery := [], host := str "h",
          authorization := str "HMAC-SHA256 Credential=c1&Signature=AQI=",
          date := str "not a date at all", contentHmac := str "CH", body := [] }
        { clientSecrets := [{ clientID := str "c1", secret := str "c2VjcmV0",
                              department := [], descr := [] }],
          routeRights := [], algorithm := str "sha256", maxAge := 300,
          required := true }).1 ≠ .error .missingDateHeader ∧
    ((validateHMACSignature (fun _ => [1, 2]) (fun _ => [3])
        { method := str "GET", path := str "/x", rawQuery := [], host := str "h",
          authorization := str "HMAC-SHA256 Credential=c1&Signature=AQI=",
          date := str "not a date at all", contentHmac := str "CH", body := [] }
        { clientSecrets := [{ clientID := str "c1", secret := str "c2VjcmV0",
                              department := [], descr := [] }],
          routeRights := [], algorithm := str "sha256", maxAge := 300,
          required := true }).1 =
      (validateHMACSignature (fun _ => [1, 2]) (fun _ => [3])
        { method := str "GET", path := str "/x", rawQuery := [], host := str "h",
          authorization := str "HMAC-SHA256 Credential=c1&Signature=AQI=",
          date := str "Mon, 02 Jan 2006 15:04:05 GMT", contentHmac := str "CH", body := [] }
        { clientSecrets := [{ clientID := str "c1", secret := str "c2VjcmV0",
                              department := [], descr := [] }],
          routeRights := [], algorithm := str "sha256", maxAge := 300,
          required := true }).1 ∨
     (((validateHMACSignature (fun _ => [1, 2]) (fun _ => [3])
        { method := str "GET", path := str "/x", rawQuery := [], host := str "h",
          authorization := str "HMAC-SHA256 Credential=c1&Signature=AQI=",
          date := str "not a date at all", contentHmac := str "CH", body := [] }
        { clientSecrets := [{ clientID := str "c1", secret := str "c2VjcmV0",
                              department := [], descr := [] }],
          routeRights := [], algorithm := str "sha256", maxAge := 300,
          required := true }).1 = .ok () ∨
       (validateHMACSignature (fun _ => [1, 2]) (fun _ => [3])
        { method := str "GET", path := str "/x", rawQuery := [], host := str "h",
          authorization := str "HMAC-SHA256 Credential=c1&Signature=AQI=",
          date := str "not a date at all", contentHmac := str "CH", body := [] }
        { clientSecrets := [{ clientID := str "c1", secret := str "c2VjcmV0",
                              department := [], descr := [] }],
          routeRights := [], algorithm := str "sha256", maxAge := 300,
          required := true }).1 = .error .signatureMismatch) ∧
      ((validateHMACSignature (fun _ => [1, 2]) (fun _ => [3])
        { method := str "GET", path := str "/x", rawQuery := [], host := str "h",
          authorization := str "HMAC-SHA256 Credential=c1&Signature=AQI=",
          date := str "Mon, 02 Jan 2006 15:04:05 GMT", contentHmac := str "CH", body := [] }
        { clientSecrets := [{ clientID := str "c1", secret := str "c2VjcmV0",
                              department := [], descr := [] }],
          routeRights := [], algorithm := str "sha256", maxAge := 300,
          required := true }).1 = .ok () ∨
       (validateHMACSignature (fun _ => [1, 2]) (fun _ => [3])
        { method := str "GET", path := str "/x", rawQuery := [], host := str "h",
          authorization := str "HMAC-SHA256 Credential=c1&Signature=AQI=",
          date := str "Mon, 02 Jan 2006 15:04:05 GMT", contentHmac := str "CH", body := [] }
        { clientSecrets := [{ clientID := str "c1", secret := str "c2VjcmV0",
                              department := [], descr := [] }],
          routeRights := [], algorithm := str "sha256", maxAge := 300,
          required := true }).1 = .error .signatureMismatch))) :=
  maxage_and_date_opacity (fun _ => [1, 2]) (fun _ => [3])
    { clientSecrets := [{ clientID := str "c1", secret := str "c2VjcmV0",
                          department := [], descr := [] }],
      routeRights := [], algorithm := str "sha256", maxAge := 300, required := true }
    0 999
    { method := str "GET", path := str "/x", rawQuery := [], host := str "h",
      authorization := str "HMAC-SHA256 Credential=c1&Signature=AQI=",
      date := str "D", contentHmac := str "CH", body := [] }
    (str "not a date at all") (str "Mon, 02 Jan 2006 15:04:05 GMT")
    (by decide) (by decide)
